import Mathlib

/-!
Verification development for the RSNA intracranial haemorrhage 3D preparation
pipeline (`prepare_3d_data.py`).  The pipeline loads a DICOM series through an
external volume-imaging engine (VTK), derives gantry-tilt shear parameters from
the patient orientation vector, reslices with an optional spacing policy,
extracts a plain 3D array, and — on any primary-path failure — falls back to a
naive per-file stacking before center-of-mass cropping and persistence.

External collaborators (the VTK reader/reslice/resample engine, the directory
listing, the per-slice fallback loader, `scipy` center of mass, and the
filesystem persistence operations) are modelled as an explicit `Env` record of
abstract operations; the repository's own control flow, arithmetic and error
policy are transcribed faithfully from the source.
-/

deriving instance DecidableEq for Except

namespace Prepare3D

/-- Patient orientation: 6 direction cosines `(x1, y1, z1, x2, y2, z2)` as
returned by `GetImageOrientationPatient()` (source line 48). -/
structure Orient6 where
  x1 : ℚ
  y1 : ℚ
  z1 : ℚ
  x2 : ℚ
  y2 : ℚ
  z2 : ℚ
deriving DecidableEq

/-- A VTK whole extent `(minX, maxX, minY, maxY, minZ, maxZ)` as returned by
`GetExtent()` (source line 85). -/
structure Extent6 where
  xmin : ℤ
  xmax : ℤ
  ymin : ℤ
  ymax : ℤ
  zmin : ℤ
  zmax : ℤ
deriving DecidableEq

/-- Observable output of a VTK pipeline stage: `GetDimensions()` (in the order
the source unpacks it, line 143: `rows, cols, depth`), `GetSpacing()`, and the
flat scalar buffer `GetPointData().GetScalars()`. -/
structure ImageData where
  dims : ℕ × ℕ × ℕ
  spacing : ℚ × ℚ × ℚ
  scalars : List ℚ
deriving DecidableEq

/-- Observable output of `vtkDICOMImageReader` after `Update()`: the patient
orientation, `GetBounds()[5]` (the z bound maximum, line 55) and the whole
extent (line 86). -/
structure ReaderOutput where
  image_orientation : Orient6
  bounds_zmax : ℚ
  extent : Extent6
deriving DecidableEq

/-- Source line 24: `ShearParams = namedtuple('ShearParams', 'rad_tilt, minus_center_z')`. -/
structure ShearParams where
  rad_tilt : ℚ
  minus_center_z : ℚ
deriving DecidableEq

/-- The `spacing` argument of `VtkImage.__init__` (line 34): the string
`'auto'`, the string `'none'`, or an explicit `[x, y, z]` triple. -/
inductive SpacingPolicy where
  | auto : SpacingPolicy
  | none : SpacingPolicy
  | explicit : (ℚ × ℚ × ℚ) → SpacingPolicy
deriving DecidableEq

/-- The reslice transform built at lines 95-102: always the shear from the
gantry-tilt parameters; the two `RotateWXYZ` calls (`-angle_z` about the z axis
then `angle_y` about the y axis) only when either angle is nonzero. -/
structure TransformSpec where
  shear : ShearParams
  rotations : Option (ℚ × ℚ)
deriving DecidableEq

/-- The `vtkImageConstantPad` configuration built at lines 81-90: an output
whole extent and the fill constant passed to `SetConstant`. -/
structure PadSpec where
  extent : Extent6
  pad_constant : ℚ
deriving DecidableEq

/-- Error taxonomy.  The Python code raises bare `Exception`/`ValueError`
values distinguished only by message; the constructors tag each raise site
(and each fallible external collaborator). -/
inductive Err where
  | ioError : String → Err
  | orientationError : Orient6 → Err
  | invalidSpacingError : String → Err
  | shortVolumeError : Err
  | stackEmptyError : Err
  | stackRaggedError : Err
  | reshapeError : Err
  | loadError : String → Err
  | comError : Err
  | persistError : String → Err
deriving DecidableEq

/-- Source line 25: `OUT_SIZE = (400, 400)`. -/
def OUT_SIZE : ℕ × ℕ := (400, 400)

/-- Source line 26: `BG_HU = -2000`. -/
def BG_HU : ℚ := -2000

/-- The metadata record assembled at lines 187-194. -/
structure Meta where
  spacing : Option (ℚ × ℚ × ℚ)
  image_orientation : Option Orient6
  crop_x : ℚ
  crop_y : ℚ
  pre_crop_shape : ℕ × ℕ × ℕ
  out_shape : ℕ × ℕ × ℕ
deriving DecidableEq

abbrev Slice2 := List (List ℚ)
abbrev Scan := List Slice2

/-- Observable result of one `process_scan` run: the persisted metadata, the
cropped volume handed to the save loop, and the persisted per-depth artifacts
(16-bit narrowed slices keyed by their zero-based index, lines 198-199). -/
structure ProcessResult where
  meta : Meta
  scan_cropped : Scan
  artifacts : List (ℕ × List (List ℤ))
deriving DecidableEq

/-- External collaborators of the pipeline, as abstract operations: the VTK
reader / reslice / resample engine, `math.atan`, the series-directory listing,
the `PydicomLoader.load` fallback loader (second argument = `convert_hu`),
`scipy.ndimage.measurements.center_of_mass`, and the filesystem side effects
(`rmtree`+`makedirs`, `json.dump`, `np.save`).  Filenames inside a series
directory are modelled as naturals whose numeric order stands for the
lexicographic filename order used by `sorted`. -/
structure Env where
  readDicom : String → Except Err ReaderOutput
  atan : ℚ → ℚ
  reslice : ReaderOutput → Option PadSpec → TransformSpec → ImageData
  resample : ImageData → (ℚ × ℚ × ℚ) → ImageData
  listDir : String → List ℕ
  load : ℕ → Bool → Except Err Slice2
  center_of_mass : List (List (List Bool)) → Except Err (ℚ × ℚ × ℚ)
  prepareOut : String → Except Err Unit
  writeMeta : String → Meta → Except Err Unit
  saveSlice : String → ℕ → List (List ℤ) → Except Err Unit

/-- State of a `VtkImage` object (lines 31-64): the reader output, the cached
orientation and shear parameters, the scan directory, the spacing policy, the
transform configuration, and the lazily recomputed pipeline output
(`self.image`, `None` when dirty). -/
structure VtkImage where
  reader : ReaderOutput
  image_orientation : Orient6
  shear_params : ShearParams
  scan_dir : String
  spacing : SpacingPolicy
  angle_z : ℚ
  angle_y : ℚ
  origin_x : Option ℤ
  image : Option ImageData
deriving DecidableEq

/-- `VtkImage.__init__` (lines 34-64): read the series, reject a zero second
in-plane orientation component (`y2 == 0`, line 51), derive the shear
parameters `(atan(z2 / y2), -(GetBounds()[5] / 2))` (lines 54-56), and start
with zero angles, no horizontal origin and an empty cache. -/
def VtkImage.init (env : Env) (scan_dir : String) (spacing : SpacingPolicy) :
    Except Err VtkImage := do
  let reader ← env.readDicom scan_dir
  let o := reader.image_orientation
  if o.y2 = 0 then throw (Err.orientationError o)
  let rad_tilt := env.atan (o.z2 / o.y2)
  let center_z := reader.bounds_zmax / 2
  pure { reader := reader
         image_orientation := o
         shear_params := ⟨rad_tilt, -center_z⟩
         scan_dir := scan_dir
         spacing := spacing
         angle_z := 0
         angle_y := 0
         origin_x := Option.none
         image := Option.none }

/-- `VtkImage.set_transform` (lines 66-70): store the three transform values
and clear the cached image. -/
def VtkImage.set_transform (v : VtkImage) (angle_z angle_y : ℚ) (origin_x : Option ℤ) :
    VtkImage :=
  { v with angle_z := angle_z, angle_y := angle_y, origin_x := origin_x,
           image := Option.none }

/-- `VtkImage.set_spacing` (lines 72-74): store the spacing policy and clear
the cached image. -/
def VtkImage.set_spacing (v : VtkImage) (spacing : SpacingPolicy) : VtkImage :=
  { v with spacing := spacing, image := Option.none }

/-- Extent arithmetic of lines 86-89: `x_size = extent[1] - extent[0]`;
`extent[0] -= max(x_size - 2 * origin_x, 0)`;
`extent[1] += max(2 * origin_x - x_size, 0)`. -/
def padExtent (extent : Extent6) (origin_x : ℤ) : Extent6 :=
  let x_size := extent.xmax - extent.xmin
  { extent with
    xmin := extent.xmin - max (x_size - 2 * origin_x) 0
    xmax := extent.xmax + max (2 * origin_x - x_size) 0 }

/-- The pad stage of `update_image` (lines 79-93): when `origin_x` is set, a
constant pad to `padExtent` with fill `BG_HU`; otherwise the reader output is
fed to the reslicer unpadded. -/
def padOf (v : VtkImage) : Option PadSpec :=
  v.origin_x.map (fun x0 => ⟨padExtent v.reader.extent x0, BG_HU⟩)

/-- The transform of lines 95-102: shear from the stored gantry-tilt
parameters, plus the two rotations only if either angle is nonzero. -/
def buildTransform (shear : ShearParams) (angle_z angle_y : ℚ) : TransformSpec :=
  { shear := shear
    rotations :=
      if angle_z ≠ 0 ∨ angle_y ≠ 0 then Option.some (-angle_z, angle_y)
      else Option.none }

/-- The reslice stage of `update_image` (lines 77-108): the external engine
applied to the (possibly padded) reader output and the built transform. -/
def resliceOf (env : Env) (v : VtkImage) : ImageData :=
  env.reslice v.reader (padOf v) (buildTransform v.shear_params v.angle_z v.angle_y)

/-- The minimum of the three post-reslice axis spacings, line 113:
`min_spacing = min(spacings_lists)`. -/
def min_spacing3 (s : ℚ × ℚ × ℚ) : ℚ := min s.1 (min s.2.1 s.2.2)

/-- `VtkImage.update_image` (lines 76-134): pad (if a horizontal origin is
set), reslice with the composite transform, resolve the spacing policy —
`auto` takes the minimum post-reslice spacing and raises `ValueError` when
that minimum is zero (Python `if not min_spacing`, line 114), `none` skips
resampling, an explicit triple is used verbatim — then resample unless the
policy said `none`, and store the result in the cache.  Returns the computed
image together with the updated object state. -/
def VtkImage.update_image (env : Env) (v : VtkImage) :
    Except Err (ImageData × VtkImage) := do
  let resliced := resliceOf env v
  let spacing ← (match v.spacing with
    | SpacingPolicy.auto =>
        let m := min_spacing3 resliced.spacing
        if m = 0 then throw (Err.invalidSpacingError v.scan_dir)
        else pure (Option.some (m, m, m))
    | SpacingPolicy.none => pure Option.none
    | SpacingPolicy.explicit s => pure (Option.some s) : Except Err (Option (ℚ × ℚ × ℚ)))
  match spacing with
  | Option.none => pure (resliced, { v with image := Option.some resliced })
  | Option.some s =>
      let resampled := env.resample resliced s
      pure (resampled, { v with image := Option.some resampled })

/-- NumPy C-order `reshape(d, c, r)` of the flat scalar buffer (line 149). -/
def reshape3 (l : List ℚ) (d c r : ℕ) : Scan :=
  (List.range d).map (fun i =>
    (List.range c).map (fun j =>
      (List.range r).map (fun k => l.getD ((i * c + j) * r + k) 0)))

/-- `np.rot90(array, 2, axes=(0, 1))` (line 150): reverse the first two axes. -/
def rot180_01 (a : Scan) : Scan := a.reverse.map (fun sl => sl.reverse)

/-- Body of `VtkImage.get_slices` once a pipeline image is available (lines
142-158): read the dimensions and spacing, reshape the flat scalars to
`(depth, cols, rows)` (raising like `np.reshape` when the buffer size does not
match), rotate 180 degrees in the `(0, 1)` plane, and reject volumes whose
first axis is shorter than 5 (`len(array) < 5`, line 155). -/
def extract_array (img : ImageData) (shear : ShearParams) :
    Except Err (Scan × (ℚ × ℚ × ℚ) × ShearParams) := do
  let rows := img.dims.1
  let cols := img.dims.2.1
  let depth := img.dims.2.2
  let spacing := img.spacing
  if img.scalars.length ≠ rows * cols * depth then throw Err.reshapeError
  let array := rot180_01 (reshape3 img.scalars depth cols rows)
  if array.length < 5 then throw Err.shortVolumeError
  pure (array, spacing, shear)

/-- `VtkImage.get_slices` (lines 136-158): recompute via `update_image` only
when the cache is empty (`if self.image is None`, line 139), then extract the
array.  Returns the Python return value, the post-call object state, and the
number of `update_image` invocations the call performed (0 or 1).  When
`update_image` raises, the object is unchanged (it assigns `self.image` only
at its very end); when it succeeds, the cache stays filled even if the short
volume check then raises. -/
def VtkImage.get_slices (env : Env) (v : VtkImage) :
    (Except Err (Scan × (ℚ × ℚ × ℚ) × ShearParams)) × VtkImage × ℕ :=
  match v.image with
  | Option.some img => (extract_array img v.shear_params, v, 0)
  | Option.none =>
      match VtkImage.update_image env v with
      | Except.error e => (Except.error e, v, 1)
      | Except.ok (img, v') => (extract_array img v'.shear_params, v', 1)

/-- Shape of a 2D numpy array built from nested lists. -/
def shape2 (sl : Slice2) : ℕ × ℕ := (sl.length, (sl.headD []).length)

/-- Shape of a 3D numpy array built from nested lists. -/
def shape3 (s : Scan) : ℕ × ℕ × ℕ :=
  (s.length, (s.headD []).length, ((s.headD []).headD []).length)

/-- `np.stack(slices)` (line 179): raises on an empty list and on slices of
differing shapes; otherwise the stacked volume is the list of slices in
order. -/
def np_stack (slices : List Slice2) : Except Err Scan :=
  match slices with
  | [] => Except.error Err.stackEmptyError
  | s :: rest =>
      if rest.all (fun t => decide (shape2 t = shape2 s)) then Except.ok (s :: rest)
      else Except.error Err.stackRaggedError

/-- The boolean mask `scan > 0` fed to the centroid computation (line 183). -/
def maskPos (s : Scan) : List (List (List Bool)) :=
  s.map (List.map (List.map (fun q => decide (0 < q))))

/-- Truncation toward zero, the first step of `astype(np.int16)` on a float. -/
def ratTrunc (q : ℚ) : ℤ := q.num / q.den

/-- `astype(np.int16)` on one value (line 199): truncate toward zero, then
wrap into the signed 16-bit range. -/
def toInt16 (q : ℚ) : ℤ := (ratTrunc q + 32768) % 65536 - 32768

/-- Value of a 2D slice at integer coordinates `(r, c)`, with the background
fill `bg` for any coordinate outside the slice (negative or beyond the
bounds): padding, never clamping. -/
def lookupQ (sl : Slice2) (r c : ℤ) (bg : ℚ) : ℚ :=
  if r < 0 ∨ c < 0 then bg
  else (sl.getD r.toNat []).getD c.toNat bg

/-- Modelled from the spec: `crop_scan` is imported from `data.utils` (line
21), a module of this repository that is not among the sources.  Spec §4.6
(Center-of-Mass Cropper): around the fractional centroid `(x, y)` compute,
for every depth slice, a window of the fixed target footprint — floor for the
lower bound, lower bound plus the target size for the upper bound — and fill
every window position that falls outside the volume with the background value
rather than clamping, so the output footprint is always exactly the target
size and depth is preserved. -/
def crop_scan (scan : Scan) (out_size : ℕ × ℕ) (x y : ℚ) (bg : ℚ) : Scan :=
  let tw := out_size.1
  let th := out_size.2
  let y0 : ℤ := Int.floor (y - (th : ℚ) / 2)
  let x0 : ℤ := Int.floor (x - (tw : ℚ) / 2)
  scan.map (fun sl =>
    (List.range th).map (fun i =>
      (List.range tw).map (fun j =>
        lookupQ sl (y0 + Int.ofNat i) (x0 + Int.ofNat j) bg)))

/-- The series directory in sorted filename order:
`sorted(exam_root.iterdir())` (line 177). -/
def sortedDir (env : Env) (scan_dir : String) : List ℕ :=
  (env.listDir scan_dir).insertionSort (fun a b => a ≤ b)

/-- The `try` block of `process_scan` (lines 166-169): construct the
`VtkImage` with spacing policy `'none'`, take its slices, and keep the scan,
its spacing, and the image orientation. -/
def primaryPath (env : Env) (scan_dir : String) :
    Except Err (Scan × (ℚ × ℚ × ℚ) × Orient6) := do
  let v ← VtkImage.init env scan_dir SpacingPolicy.none
  let (scan, spacing, _sh) ← (VtkImage.get_slices env v).1
  pure (scan, spacing, v.image_orientation)

/-- The shared tail of `process_scan` (lines 183-199), with no error handling
of its own: centroid of the positive mask, center-of-mass crop to `OUT_SIZE`
with `BG_HU` fill, metadata assembly and persistence, and the per-depth
16-bit save loop. -/
def finishScan (env : Env) (scan_dir : String) (scan : Scan)
    (spacing : Option (ℚ × ℚ × ℚ)) (image_orientation : Option Orient6) :
    Except Err ProcessResult := do
  let com ← env.center_of_mass (maskPos scan)
  let y := com.2.1
  let x := com.2.2
  let pre_crop_shape := shape3 scan
  let scan_cropped := crop_scan scan OUT_SIZE x y BG_HU
  let meta : Meta :=
    ⟨spacing, image_orientation, x, y, pre_crop_shape, shape3 scan_cropped⟩
  env.writeMeta scan_dir meta
  let artifacts := scan_cropped.enum.map
    (fun p => (p.1, p.2.map (fun row => row.map toInt16)))
  artifacts.forM (fun a => env.saveSlice scan_dir a.1 a.2)
  pure ⟨meta, scan_cropped, artifacts⟩

/-- The `except` block of `process_scan` (lines 171-181) and the code after
it: load every file of the series directory in sorted filename order with
`convert_hu=False`, stack them, and continue with null spacing and null
orientation.  No error raised here is caught. -/
def processFallback (env : Env) (scan_dir : String) : Except Err ProcessResult := do
  let slices ← (sortedDir env scan_dir).mapM (fun p => env.load p false)
  let scan ← np_stack slices
  finishScan env scan_dir scan Option.none Option.none

/-- `process_scan` (lines 161-199): clear and recreate the output location,
attempt the primary reconstruction (`try`, lines 166-169), and on any error
whatsoever run the fallback stacking instead; then compute the centroid, crop
and persist.  Only the primary path sits inside the `try`. -/
def process_scan (env : Env) (scan_dir : String) : Except Err ProcessResult := do
  env.prepareOut scan_dir
  match primaryPath env scan_dir with
  | Except.ok (scan, spacing, image_orientation) =>
      finishScan env scan_dir scan (Option.some spacing) (Option.some image_orientation)
  | Except.error _ => processFallback env scan_dir

/-! ### Concrete fixtures used to instantiate the theorems -/

/-- A standard-orientation reader output (`y2 = 1`). -/
def rOK : ReaderOutput := ⟨⟨1, 0, 0, 0, 1, 0⟩, 10, ⟨0, 5, 0, 5, 0, 5⟩⟩

/-- A non-standard-orientation reader output (`y2 = 0`). -/
def rY0 : ReaderOutput := ⟨⟨1, 0, 0, 0, 0, 1⟩, 10, ⟨0, 5, 0, 5, 0, 5⟩⟩

/-- A well-formed 1x1x6 pipeline image. -/
def imgOK : ImageData := ⟨(1, 1, 6), (1, 1, 1), [0, 1, 2, 3, 4, 5]⟩

/-- A fully succeeding environment with a standard-orientation series. -/
def envOK : Env :=
  { readDicom := fun _ => Except.ok rOK
    atan := id
    reslice := fun _ _ _ => imgOK
    resample := fun i _ => i
    listDir := fun _ => [1, 0]
    load := fun _ _ => Except.ok [[5]]
    center_of_mass := fun _ => Except.ok (0, 0, 0)
    prepareOut := fun _ => Except.ok ()
    writeMeta := fun _ _ => Except.ok ()
    saveSlice := fun _ _ _ => Except.ok () }

/-- An environment whose series reader raises, with a working single-file
fallback directory. -/
def envFB1 : Env :=
  { envOK with
    readDicom := fun _ => Except.error (Err.ioError "unreadable series")
    listDir := fun _ => [0] }

/-- An environment whose series has the non-standard orientation. -/
def envY0 : Env := { envOK with readDicom := fun _ => Except.ok rY0 }

/-- An environment whose reslice stage reports a negative minimum spacing. -/
def envNeg : Env :=
  { envOK with reslice := fun _ _ _ => ⟨(1, 1, 6), (-1, 1, 1), [0, 1, 2, 3, 4, 5]⟩ }

/-- An environment whose reslice stage reports a zero minimum spacing. -/
def envZero : Env :=
  { envOK with reslice := fun _ _ _ => ⟨(1, 1, 6), (0, 1, 1), [0, 1, 2, 3, 4, 5]⟩ }

/-- A loaded image object with spacing policy `'auto'` and an empty cache. -/
def vAuto : VtkImage :=
  { reader := rOK
    image_orientation := rOK.image_orientation
    shear_params := ⟨0, -5⟩
    scan_dir := "d"
    spacing := SpacingPolicy.auto
    angle_z := 0
    angle_y := 0
    origin_x := Option.none
    image := Option.none }

/-- A loaded image object with spacing policy `'none'` and a filled cache. -/
def vCache : VtkImage :=
  { vAuto with spacing := SpacingPolicy.none, image := Option.some imgOK }

/-- A loaded image object with a horizontal origin set and spacing `'none'`. -/
def vPad : VtkImage :=
  { vAuto with spacing := SpacingPolicy.none, origin_x := Option.some 3 }

/-! ### Helper lemmas -/

theorem except_ok_bind {ε α β : Type} (a : α) (f : α → Except ε β) :
    (Except.ok a >>= f : Except ε β) = f a := rfl

theorem except_error_bind {ε α β : Type} (e : ε) (f : α → Except ε β) :
    ((Except.error e : Except ε α) >>= f) = Except.error e := rfl

theorem except_bind_ok_inv {ε α β : Type} {m : Except ε α} {f : α → Except ε β} {b : β}
    (h : (m >>= f) = Except.ok b) : ∃ a, m = Except.ok a ∧ f a = Except.ok b := by
  cases m with
  | error e => cases h
  | ok a => exact ⟨a, rfl, h⟩

theorem except_isOk_exists {ε α : Type} {m : Except ε α} (h : m.isOk = true) :
    ∃ a, m = Except.ok a := by
  cases m with
  | error e => simp [Except.isOk, Except.toBool] at h
  | ok a => exact ⟨a, rfl⟩

theorem except_pure_bind {ε α β : Type} (a : α) (f : α → Except ε β) :
    ((pure a : Except ε α) >>= f) = f a := rfl

theorem except_pure_ok_inv {ε α : Type} {a b : α}
    (h : (pure a : Except ε α) = Except.ok b) : a = b := by
  cases h
  rfl

/-- Both success branches of `update_image` leave the shear parameters intact
and fill the cache with the image they return. -/
theorem update_image_state (env : Env) (v : VtkImage) (img : ImageData) (v' : VtkImage)
    (h : VtkImage.update_image env v = Except.ok (img, v')) :
    v'.shear_params = v.shear_params ∧ v' = { v with image := Option.some img } := by
  unfold VtkImage.update_image at h
  cases hsp : v.spacing with
  | auto =>
    rw [hsp] at h
    by_cases hm : min_spacing3 (resliceOf env v).spacing = 0
    · simp only [if_pos hm] at h
      exact absurd h (by simp [throw, throwThe, MonadExceptOf.throw, except_error_bind])
    · simp only [if_neg hm, except_ok_bind, pure] at h
      cases h
      exact ⟨rfl, rfl⟩
  | none =>
    rw [hsp] at h
    simp only [except_ok_bind, pure] at h
    cases h
    exact ⟨rfl, rfl⟩
  | explicit s =>
    rw [hsp] at h
    simp only [except_ok_bind, pure] at h
    cases h
    exact ⟨rfl, rfl⟩

/-- On a readable series with a nonzero second in-plane component, `__init__`
returns exactly the state written at lines 56-64. -/
theorem init_ok (env : Env) (dir : String) (sp : SpacingPolicy) (r : ReaderOutput)
    (h : env.readDicom dir = Except.ok r) (hy : r.image_orientation.y2 ≠ 0) :
    VtkImage.init env dir sp =
      Except.ok
        { reader := r
          image_orientation := r.image_orientation
          shear_params :=
            ⟨env.atan (r.image_orientation.z2 / r.image_orientation.y2),
             -(r.bounds_zmax / 2)⟩
          scan_dir := dir
          spacing := sp
          angle_z := 0
          angle_y := 0
          origin_x := Option.none
          image := Option.none } := by
  unfold VtkImage.init
  rw [h, except_ok_bind]
  simp only [if_neg hy, except_ok_bind, pure]
  rfl

/-- On a readable series with a zero second in-plane component, `__init__`
raises at line 52 before building anything. -/
theorem init_orientation_error (env : Env) (dir : String) (sp : SpacingPolicy)
    (r : ReaderOutput) (h : env.readDicom dir = Except.ok r)
    (hy : r.image_orientation.y2 = 0) :
    VtkImage.init env dir sp = Except.error (Err.orientationError r.image_orientation) := by
  unfold VtkImage.init
  rw [h, except_ok_bind]
  simp only [if_pos hy]
  rfl

/-- Inversion for a successful `finishScan`: the centroid call succeeded and
the result is exactly the metadata, cropped volume and artifact list built at
lines 183-199 from the input volume. -/
theorem finishScan_ok_inv (env : Env) (d : String) (scan : Scan)
    (sp : Option (ℚ × ℚ × ℚ)) (o : Option Orient6) (res : ProcessResult)
    (h : finishScan env d scan sp o = Except.ok res) :
    ∃ com, env.center_of_mass (maskPos scan) = Except.ok com ∧
      res = ⟨⟨sp, o, com.2.2, com.2.1, shape3 scan,
              shape3 (crop_scan scan OUT_SIZE com.2.2 com.2.1 BG_HU)⟩,
             crop_scan scan OUT_SIZE com.2.2 com.2.1 BG_HU,
             (crop_scan scan OUT_SIZE com.2.2 com.2.1 BG_HU).enum.map
               (fun p => (p.1, p.2.map (fun row => row.map toInt16)))⟩ := by
  unfold finishScan at h
  obtain ⟨com, hcom, h⟩ := except_bind_ok_inv h
  obtain ⟨u, hw, h⟩ := except_bind_ok_inv h
  obtain ⟨u2, hf, h⟩ := except_bind_ok_inv h
  exact ⟨com, hcom, (except_pure_ok_inv h).symm⟩

/-- A successful `np.stack` returns its input slices unchanged. -/
theorem np_stack_ok_inv (slices : List Slice2) (scan : Scan)
    (h : np_stack slices = Except.ok scan) : scan = slices ∧ slices ≠ [] := by
  cases slices with
  | nil => cases h
  | cons s rest =>
    simp only [np_stack] at h
    by_cases hall : rest.all (fun t => decide (shape2 t = shape2 s)) = true
    · rw [if_pos hall] at h
      cases h
      exact ⟨rfl, by simp⟩
    · rw [if_neg hall] at h
      cases h

/-- Inversion for a successful fallback run: the slices are the sorted-order
loads with `convert_hu=False`, the stack is those slices, and the tail ran on
that stack with null spacing and orientation. -/
theorem processFallback_ok_inv (env : Env) (d : String) (res : ProcessResult)
    (h : processFallback env d = Except.ok res) :
    ∃ slices, (sortedDir env d).mapM (fun p => env.load p false) = Except.ok slices ∧
      np_stack slices = Except.ok slices ∧ slices ≠ [] ∧
      finishScan env d slices Option.none Option.none = Except.ok res := by
  unfold processFallback at h
  obtain ⟨slices, hload, h1⟩ := except_bind_ok_inv h
  obtain ⟨scan, hstack, h2⟩ := except_bind_ok_inv h1
  obtain ⟨heq, hne⟩ := np_stack_ok_inv slices scan hstack
  refine ⟨slices, hload, ?_, hne, ?_⟩
  · rw [hstack, heq]
  · rw [← heq]
    exact h2

/-! ### Claims -/

/-- C1.  For every orientation vector with nonzero `y2` and every loaded
volume with z-bound maximum `bounds_zmax`, the shear parameters derived at
load time are exactly `(atan(z2 / y2), -(bounds_zmax / 2))`; they are a
deterministic function of the orientation vector and the volume bounds
(witnessed by the explicit formula), and neither setter nor a pipeline
recomputation ever changes them for the scan. -/
theorem shear_params_formula_and_immutable (env : Env) (dir : String)
    (sp : SpacingPolicy) (r : ReaderOutput)
    (h : env.readDicom dir = Except.ok r) (hy : r.image_orientation.y2 ≠ 0) :
    ∃ v, VtkImage.init env dir sp = Except.ok v ∧
      v.shear_params =
        ⟨env.atan (r.image_orientation.z2 / r.image_orientation.y2),
         -(r.bounds_zmax / 2)⟩ ∧
      (∀ az ay ox, (VtkImage.set_transform v az ay ox).shear_params = v.shear_params) ∧
      (∀ s, (VtkImage.set_spacing v s).shear_params = v.shear_params) ∧
      (∀ img v', VtkImage.update_image env v = Except.ok (img, v') →
        v'.shear_params = v.shear_params) := by
  refine ⟨_, init_ok env dir sp r h hy, rfl, fun _ _ _ => rfl, fun _ => rfl, ?_⟩
  intro img v' hupd
  exact (update_image_state env _ img v' hupd).1

/-- Witness for C1 at a concrete environment (`y2 = 1`, `bounds_zmax = 10`). -/
theorem shear_params_formula_and_immutable_witness :
    ∃ v, VtkImage.init envOK "d" SpacingPolicy.none = Except.ok v ∧
      v.shear_params =
        ⟨envOK.atan (rOK.image_orientation.z2 / rOK.image_orientation.y2),
         -(rOK.bounds_zmax / 2)⟩ ∧
      (∀ az ay ox, (VtkImage.set_transform v az ay ox).shear_params = v.shear_params) ∧
      (∀ s, (VtkImage.set_spacing v s).shear_params = v.shear_params) ∧
      (∀ img v', VtkImage.update_image envOK v = Except.ok (img, v') →
        v'.shear_params = v.shear_params) :=
  shear_params_formula_and_immutable envOK "d" SpacingPolicy.none rOK rfl
    (by norm_num [rOK])

/-- C2.  Every error raised anywhere in the primary reconstruction path
(series reading, tilt correction, spacing resolution, array extraction — all
of `primaryPath`) is caught at the `process_scan` boundary and converted into
a fallback execution, so the scan completes whenever the fallback chain does;
every error raised inside the fallback loop, the centroid computation, the
crop, or the persistence steps (all of `processFallback`) is not caught and
becomes the result of `process_scan`, aborting that scan. -/
theorem scan_processor_error_boundary (env : Env) (d : String) :
    (∀ e, primaryPath env d = Except.error e → env.prepareOut d = Except.ok () →
      process_scan env d = processFallback env d) ∧
    (∀ r, primaryPath env d = Except.ok r → env.prepareOut d = Except.ok () →
      process_scan env d =
        finishScan env d r.1 (Option.some r.2.1) (Option.some r.2.2)) ∧
    (∀ e e', primaryPath env d = Except.error e → env.prepareOut d = Except.ok () →
      processFallback env d = Except.error e' →
      process_scan env d = Except.error e') ∧
    (∀ e res, primaryPath env d = Except.error e → env.prepareOut d = Except.ok () →
      processFallback env d = Except.ok res →
      process_scan env d = Except.ok res) := by
  have hbase : ∀ e, primaryPath env d = Except.error e →
      env.prepareOut d = Except.ok () → process_scan env d = processFallback env d := by
    intro e hp hprep
    unfold process_scan
    rw [hprep, except_ok_bind, hp]
  refine ⟨hbase, ?_, ?_, ?_⟩
  · intro r hp hprep
    obtain ⟨scan, spacing, o⟩ := r
    unfold process_scan
    rw [hprep, except_ok_bind, hp]
  · intro e e' hp hprep hfb
    rw [hbase e hp hprep, hfb]
  · intro e res hp hprep hfb
    rw [hbase e hp hprep, hfb]

/-- Witness for C2 at a concrete environment whose series reader raises an
IOError: the scan processor runs the fallback instead. -/
theorem scan_processor_error_boundary_witness :
    process_scan envFB1 "d" = processFallback envFB1 "d" :=
  (scan_processor_error_boundary envFB1 "d").1 (Err.ioError "unreadable series") rfl rfl

/-- C3.  If the second in-plane orientation component `y2` is zero,
constructing the `VtkImage` fails with the orientation error of line 52
before any transform is built; the primary path therefore fails, and any
completed run of the pipeline recorded null spacing and null orientation in
its metadata. -/
theorem orientation_zero_triggers_fallback (env : Env) (dir : String)
    (sp : SpacingPolicy) (r : ReaderOutput)
    (h : env.readDicom dir = Except.ok r) (hy : r.image_orientation.y2 = 0) :
    VtkImage.init env dir sp = Except.error (Err.orientationError r.image_orientation) ∧
    primaryPath env dir = Except.error (Err.orientationError r.image_orientation) ∧
    ∀ res, process_scan env dir = Except.ok res →
      res.meta.spacing = Option.none ∧ res.meta.image_orientation = Option.none := by
  have hinit := init_orientation_error env dir sp r h hy
  have hinit' := init_orientation_error env dir SpacingPolicy.none r h hy
  have hprim : primaryPath env dir =
      Except.error (Err.orientationError r.image_orientation) := by
    unfold primaryPath
    rw [hinit', except_error_bind]
  refine ⟨hinit, hprim, ?_⟩
  intro res hok
  unfold process_scan at hok
  obtain ⟨u, hprep, h2⟩ := except_bind_ok_inv hok
  rw [hprim] at h2
  obtain ⟨slices, hload, hstack, hne, hfin⟩ := processFallback_ok_inv env dir res h2
  obtain ⟨com, hcom, hres⟩ := finishScan_ok_inv env dir slices Option.none Option.none res hfin
  rw [hres]
  exact ⟨rfl, rfl⟩

/-- Witness for C3 at a concrete environment whose series has `y2 = 0` and
whose fallback directory loads successfully. -/
theorem orientation_zero_triggers_fallback_witness :
    VtkImage.init envY0 "d" SpacingPolicy.none =
      Except.error (Err.orientationError rY0.image_orientation) ∧
    ∃ res, process_scan envY0 "d" = Except.ok res ∧
      res.meta.spacing = Option.none ∧ res.meta.image_orientation = Option.none := by
  refine ⟨(orientation_zero_triggers_fallback envY0 "d" SpacingPolicy.none rY0 rfl rfl).1, ?_⟩
  have hok : (process_scan envY0 "d").isOk = true := rfl
  obtain ⟨res, hres⟩ := except_isOk_exists hok
  exact ⟨res, hres,
    (orientation_zero_triggers_fallback envY0 "d" SpacingPolicy.none rY0 rfl rfl).2.2 res hres⟩

/-- C4 (amended).  Under spacing policy `'auto'` the resolved target spacing
is the minimum of the three post-reslice spacings replicated on all three
axes, and the resolver fails with the invalid-spacing error if and only if
that minimum is exactly zero (Python `if not min_spacing`, line 114); a
negative minimum is accepted.  (The claim's "zero or non-positive" is refuted
by `auto_spacing_negative_not_rejected`.) -/
theorem auto_spacing_zero_iff (env : Env) (v : VtkImage)
    (h : v.spacing = SpacingPolicy.auto) :
    (VtkImage.update_image env v =
        Except.error (Err.invalidSpacingError v.scan_dir) ↔
      min_spacing3 (resliceOf env v).spacing = 0) ∧
    (min_spacing3 (resliceOf env v).spacing ≠ 0 →
      VtkImage.update_image env v =
        Except.ok
          (env.resample (resliceOf env v)
            (min_spacing3 (resliceOf env v).spacing,
             min_spacing3 (resliceOf env v).spacing,
             min_spacing3 (resliceOf env v).spacing),
           { v with image := Option.some (env.resample (resliceOf env v)
              (min_spacing3 (resliceOf env v).spacing,
               min_spacing3 (resliceOf env v).spacing,
               min_spacing3 (resliceOf env v).spacing)) })) := by
  unfold VtkImage.update_image
  rw [h]
  by_cases hm : min_spacing3 (resliceOf env v).spacing = 0
  · refine ⟨⟨fun _ => hm, fun _ => ?_⟩, fun hne => absurd hm hne⟩
    simp only [if_pos hm]
    rfl
  · refine ⟨⟨fun hc => ?_, fun h0 => absurd h0 hm⟩, fun _ => ?_⟩
    · simp only [if_neg hm, except_pure_bind] at hc
      cases hc
    · simp only [if_neg hm, except_pure_bind]
      rfl

/-- Counterexample to C4 as stated: a reslice whose minimum spacing is `-1`
(non-positive but nonzero) is not rejected — `update_image` succeeds, so the
resolver does not fail whenever the minimum is non-positive. -/
theorem auto_spacing_negative_not_rejected :
    min_spacing3 (resliceOf envNeg vAuto).spacing = -1 ∧
    min_spacing3 (resliceOf envNeg vAuto).spacing ≤ 0 ∧
    VtkImage.update_image envNeg vAuto ≠
      Except.error (Err.invalidSpacingError vAuto.scan_dir) ∧
    (VtkImage.update_image envNeg vAuto).isOk = true := by
  refine ⟨by decide, by decide, ?_, rfl⟩
  intro hc
  cases hc

/-- Witness for C4 (amended) at a concrete reslice with minimum spacing 0:
the resolver raises the invalid-spacing error. -/
theorem auto_spacing_zero_iff_witness :
    min_spacing3 (resliceOf envZero vAuto).spacing = 0 ∧
    VtkImage.update_image envZero vAuto =
      Except.error (Err.invalidSpacingError vAuto.scan_dir) :=
  ⟨by decide, (auto_spacing_zero_iff envZero vAuto rfl).1.mpr (by decide)⟩

/-- C5.  With a computed pipeline image whose scalar buffer matches its
dimensions, `get_slices` fails with the short-volume error if and only if the
extracted array's first-axis length (the depth) is less than 5; for depth at
least 5 it returns the rotated reshaped array, the image spacing, and the
shear parameters. -/
theorem get_slices_short_volume_iff (env : Env) (v : VtkImage) (img : ImageData)
    (himg : v.image = Option.some img)
    (hwf : img.scalars.length = img.dims.1 * img.dims.2.1 * img.dims.2.2) :
    ((VtkImage.get_slices env v).1 = Except.error Err.shortVolumeError ↔
      img.dims.2.2 < 5) ∧
    (5 ≤ img.dims.2.2 →
      (VtkImage.get_slices env v).1 =
        Except.ok
          (rot180_01 (reshape3 img.scalars img.dims.2.2 img.dims.2.1 img.dims.1),
           img.spacing, v.shear_params)) := by
  have harr :
      (rot180_01 (reshape3 img.scalars img.dims.2.2 img.dims.2.1 img.dims.1)).length =
        img.dims.2.2 := by
    simp [rot180_01, reshape3]
  unfold VtkImage.get_slices
  rw [himg]
  dsimp only
  unfold extract_array
  rw [if_neg (fun hc => hc hwf)]
  rw [except_pure_bind]
  dsimp only
  simp only [harr]
  by_cases hd : img.dims.2.2 < 5
  · refine ⟨⟨fun _ => hd, fun _ => ?_⟩, fun h5 => absurd hd (not_lt.mpr h5)⟩
    rw [if_pos hd]
    rfl
  · refine ⟨⟨fun hc => ?_, fun h0 => absurd h0 hd⟩, fun _ => ?_⟩
    · rw [if_neg hd] at hc
      cases hc
    · rw [if_neg hd]
      rfl

/-- Witness for C5 at a concrete cached 1x1x6 image: depth 6 is accepted and
the extracted array, spacing, and shear parameters are returned. -/
theorem get_slices_short_volume_iff_witness :
    imgOK.scalars.length = imgOK.dims.1 * imgOK.dims.2.1 * imgOK.dims.2.2 ∧
    5 ≤ imgOK.dims.2.2 ∧
    (VtkImage.get_slices envOK vCache).1 =
      Except.ok
        (rot180_01 (reshape3 imgOK.scalars imgOK.dims.2.2 imgOK.dims.2.1 imgOK.dims.1),
         imgOK.spacing, vCache.shear_params) :=
  ⟨rfl, by decide,
   (get_slices_short_volume_iff envOK vCache imgOK rfl rfl).2 (by decide)⟩

/-- C6.  Whenever the primary path raises and the scan still completes, the
volume handed to cropping equals the stack, in sorted filename order, of the
per-file loads performed with `convert_hu=False`, and the metadata records
null spacing and null orientation. -/
theorem fallback_stacks_sorted_loads (env : Env) (dir : String) (e : Err)
    (hp : primaryPath env dir = Except.error e)
    (hok : (process_scan env dir).isOk = true) :
    ∃ res slices com,
      process_scan env dir = Except.ok res ∧
      (sortedDir env dir).mapM (fun p => env.load p false) = Except.ok slices ∧
      np_stack slices = Except.ok slices ∧
      env.center_of_mass (maskPos slices) = Except.ok com ∧
      res.scan_cropped = crop_scan slices OUT_SIZE com.2.2 com.2.1 BG_HU ∧
      res.meta.spacing = Option.none ∧
      res.meta.image_orientation = Option.none ∧
      res.meta.pre_crop_shape = shape3 slices := by
  obtain ⟨res, hres⟩ := except_isOk_exists hok
  have hres0 : process_scan env dir = Except.ok res := hres
  unfold process_scan at hres
  obtain ⟨u, hprep, h2⟩ := except_bind_ok_inv hres
  rw [hp] at h2
  obtain ⟨slices, hload, hstack, hne, hfin⟩ := processFallback_ok_inv env dir res h2
  obtain ⟨com, hcom, hresval⟩ :=
    finishScan_ok_inv env dir slices Option.none Option.none res hfin
  refine ⟨res, slices, com, hres0, hload, hstack, hcom, ?_, ?_, ?_, ?_⟩ <;>
    rw [hresval]

/-- Witness for C6 at a concrete environment with a failing series reader and
a one-file fallback directory. -/
theorem fallback_stacks_sorted_loads_witness :
    primaryPath envFB1 "d" = Except.error (Err.ioError "unreadable series") ∧
    ∃ res slices com,
      process_scan envFB1 "d" = Except.ok res ∧
      (sortedDir envFB1 "d").mapM (fun p => envFB1.load p false) = Except.ok slices ∧
      np_stack slices = Except.ok slices ∧
      envFB1.center_of_mass (maskPos slices) = Except.ok com ∧
      res.scan_cropped = crop_scan slices OUT_SIZE com.2.2 com.2.1 BG_HU ∧
      res.meta.spacing = Option.none ∧
      res.meta.image_orientation = Option.none ∧
      res.meta.pre_crop_shape = shape3 slices :=
  ⟨rfl, fallback_stacks_sorted_loads envFB1 "d" (Err.ioError "unreadable series") rfl rfl⟩

/-- C7 (amended).  Setters clear the cached volume without recomputing, and
`get_slices` recomputes only when the cache is empty; two consecutive
`get_slices` calls with no intervening setter trigger at most one
recomputation provided a performed recomputation succeeds.  (The unconditional
"at most one" of the claim is refuted by `transform_state_two_recomputes`:
a failed recomputation leaves the cache empty and is retried.) -/
theorem transform_state_dirty_flag (env : Env) (v : VtkImage) :
    (∀ az ay ox, (VtkImage.set_transform v az ay ox).image = Option.none) ∧
    (∀ sp, (VtkImage.set_spacing v sp).image = Option.none) ∧
    (∀ img, v.image = Option.some img →
      (VtkImage.get_slices env v).2.2 = 0 ∧ (VtkImage.get_slices env v).2.1 = v) ∧
    ((VtkImage.update_image env v).isOk = true →
      (VtkImage.get_slices env v).2.2 +
        (VtkImage.get_slices env (VtkImage.get_slices env v).2.1).2.2 ≤ 1) := by
  refine ⟨fun _ _ _ => rfl, fun _ => rfl, ?_, ?_⟩
  · intro img himg
    unfold VtkImage.get_slices
    rw [himg]
    exact ⟨rfl, rfl⟩
  · intro hupd
    cases hcache : v.image with
    | some img =>
      unfold VtkImage.get_slices
      rw [hcache]
      dsimp only
      rw [hcache]
      dsimp only
      omega
    | none =>
      obtain ⟨p, hp⟩ := except_isOk_exists hupd
      obtain ⟨img, v'⟩ := p
      have hst := update_image_state env v img v' hp
      unfold VtkImage.get_slices
      rw [hcache, hp]
      dsimp only
      have himg' : v'.image = Option.some img := by
        rw [hst.2]
      rw [himg']
      dsimp only
      omega

/-- Counterexample to C7 as stated: under spacing policy `'auto'` with a
degenerate reslice, a first `get_slices` recomputation fails, the cache stays
empty, and the immediately following `get_slices` (no setter in between)
recomputes again — two recomputations across two consecutive calls. -/
theorem transform_state_two_recomputes :
    (VtkImage.get_slices envZero vAuto).2.2 +
      (VtkImage.get_slices envZero (VtkImage.get_slices envZero vAuto).2.1).2.2 = 2 := by
  decide

/-- Witness for C7 (amended): with a filled cache a `get_slices` call performs
no recomputation and leaves the state unchanged. -/
theorem transform_state_dirty_flag_witness :
    (VtkImage.get_slices envOK vCache).2.2 = 0 ∧
    (VtkImage.get_slices envOK vCache).2.1 = vCache :=
  (transform_state_dirty_flag envOK vCache).2.2.1 imgOK rfl

/-- C8.  When a horizontal origin `x0` is set, `update_image` feeds the
reslicer a constant pad with fill `BG_HU` whose extent is `padExtent` of the
reader extent: only the width axis changes, the low side grows by
`max(x_size - 2*x0, 0)`, the high side by `max(2*x0 - x_size, 0)`, the
extent never shrinks, only the side(s) needed to recenter grow, and `x0`
(measured from the original low bound) lies at the center of the padded
width. -/
theorem horizontal_origin_padding (env : Env) (v : VtkImage) (x0 : ℤ)
    (hox : v.origin_x = Option.some x0) (hsp : v.spacing = SpacingPolicy.none) :
    padOf v = Option.some ⟨padExtent v.reader.extent x0, BG_HU⟩ ∧
    VtkImage.update_image env v =
      Except.ok (resliceOf env v, { v with image := Option.some (resliceOf env v) }) ∧
    ∀ e : Extent6,
      (padExtent e x0).ymin = e.ymin ∧
      (padExtent e x0).ymax = e.ymax ∧
      (padExtent e x0).zmin = e.zmin ∧
      (padExtent e x0).zmax = e.zmax ∧
      (padExtent e x0).xmin = e.xmin - max ((e.xmax - e.xmin) - 2 * x0) 0 ∧
      (padExtent e x0).xmax = e.xmax + max (2 * x0 - (e.xmax - e.xmin)) 0 ∧
      (padExtent e x0).xmin ≤ e.xmin ∧
      e.xmax ≤ (padExtent e x0).xmax ∧
      (e.xmax - e.xmin ≤ 2 * x0 → (padExtent e x0).xmin = e.xmin) ∧
      (2 * x0 ≤ e.xmax - e.xmin → (padExtent e x0).xmax = e.xmax) ∧
      (padExtent e x0).xmin + (padExtent e x0).xmax = 2 * (e.xmin + x0) := by
  refine ⟨?_, ?_, ?_⟩
  · unfold padOf
    rw [hox]
    rfl
  · unfold VtkImage.update_image
    rw [hsp]
    rfl
  · intro e
    unfold padExtent
    dsimp only
    refine ⟨rfl, rfl, rfl, rfl, rfl, rfl, ?_, ?_, ?_, ?_, ?_⟩ <;> omega

/-- Witness for C8 at a concrete image state with horizontal origin 3. -/
theorem horizontal_origin_padding_witness :
    padOf vPad = Option.some ⟨padExtent vPad.reader.extent 3, BG_HU⟩ ∧
    VtkImage.update_image envOK vPad =
      Except.ok (resliceOf envOK vPad,
        { vPad with image := Option.some (resliceOf envOK vPad) }) :=
  ⟨(horizontal_origin_padding envOK vPad 3 rfl rfl).1,
   (horizontal_origin_padding envOK vPad 3 rfl rfl).2.1⟩

/-- C10.  The minimum-depth requirement lives only on the primary path: when
the primary path fails and the fallback loads fewer than 5 slices, no short
volume check is applied — the completed run's metadata has the short depth as
its pre-crop depth, and one artifact per (short) depth index was still
persisted. -/
theorem fallback_skips_min_depth (env : Env) (dir : String) (e : Err)
    (slices : List Slice2)
    (hp : primaryPath env dir = Except.error e)
    (hok : (process_scan env dir).isOk = true)
    (hsl : (sortedDir env dir).mapM (fun p => env.load p false) = Except.ok slices)
    (hlen : slices.length < 5) :
    ∃ res, process_scan env dir = Except.ok res ∧
      res.meta.pre_crop_shape.1 = slices.length ∧
      res.meta.pre_crop_shape.1 < 5 ∧
      res.artifacts.length = slices.length := by
  obtain ⟨res, hres⟩ := except_isOk_exists hok
  have hres0 : process_scan env dir = Except.ok res := hres
  unfold process_scan at hres
  obtain ⟨u, hprep, h2⟩ := except_bind_ok_inv hres
  rw [hp] at h2
  obtain ⟨slices', hload, hstack, hne, hfin⟩ := processFallback_ok_inv env dir res h2
  rw [hsl] at hload
  have heq : slices = slices' := by
    injection hload
  subst heq
  obtain ⟨com, hcom, hresval⟩ :=
    finishScan_ok_inv env dir slices Option.none Option.none res hfin
  refine ⟨res, hres0, ?_, ?_, ?_⟩
  · rw [hresval]
    rfl
  · rw [hresval]
    exact hlen
  · rw [hresval]
    simp [crop_scan]

/-- Witness for C10: a fallback of a single slice (depth 1) still completes,
with one persisted artifact. -/
theorem fallback_skips_min_depth_witness :
    ∃ res, process_scan envFB1 "d" = Except.ok res ∧
      res.meta.pre_crop_shape.1 = ([[[5]]] : List Slice2).length ∧
      res.meta.pre_crop_shape.1 < 5 ∧
      res.artifacts.length = ([[[5]]] : List Slice2).length :=
  fallback_skips_min_depth envFB1 "d" (Err.ioError "unreadable series") [[[5]]]
    rfl rfl rfl (by decide)

theorem getD_map_lt {α β : Type} (f : α → β) (l : List α) (dfl : β) (dfa : α)
    (n : ℕ) (h : n < l.length) : (l.map f).getD n dfl = f (l.getD n dfa) := by
  rw [List.getD_eq_getElem _ _ (by simpa using h), List.getD_eq_getElem _ _ h,
    List.getElem_map]

theorem getD_range_map {β : Type} (g : ℕ → β) (m i : ℕ) (dfl : β) (h : i < m) :
    ((List.range m).map g).getD i dfl = g i := by
  rw [getD_map_lt g _ dfl 0 i (by simpa using h)]
  congr 1
  rw [List.getD_eq_getElem _ _ (by simpa using h)]
  simp

/-- C9.  For every input volume, every background fill value, and every
fractional centroid — including centroids near or beyond the edges — the
cropped output has exactly the fixed `OUT_SIZE` footprint on every depth
slice with depth preserved, each output position reads the input through
`lookupQ` at the floor-rounded window origin, and any out-of-bounds window
position yields the background fill value rather than a clamped read. -/
theorem com_cropper_fixed_footprint (scan : Scan) (x y bg : ℚ) :
    (crop_scan scan OUT_SIZE x y bg).length = scan.length ∧
    (∀ sl, sl ∈ crop_scan scan OUT_SIZE x y bg →
      sl.length = 400 ∧ ∀ row, row ∈ sl → row.length = 400) ∧
    (∀ d i j : ℕ, d < scan.length → i < 400 → j < 400 →
      (((crop_scan scan OUT_SIZE x y bg).getD d []).getD i []).getD j bg =
        lookupQ (scan.getD d [])
          (Int.floor (y - (400 : ℚ) / 2) + (i : ℤ))
          (Int.floor (x - (400 : ℚ) / 2) + (j : ℤ)) bg) ∧
    (∀ sl : Slice2, ∀ r c : ℤ,
      (r < 0 ∨ c < 0 ∨ sl.length ≤ r.toNat ∨ (sl.getD r.toNat []).length ≤ c.toNat) →
      lookupQ sl r c bg = bg) := by
  refine ⟨by simp [crop_scan], ?_, ?_, ?_⟩
  · intro sl hsl
    simp only [crop_scan, List.mem_map] at hsl
    obtain ⟨a, -, rfl⟩ := hsl
    refine ⟨by simp [OUT_SIZE], ?_⟩
    intro row hrow
    simp only [List.mem_map] at hrow
    obtain ⟨i, -, rfl⟩ := hrow
    simp [OUT_SIZE]
  · intro d i j hd hi hj
    simp only [crop_scan, OUT_SIZE]
    rw [getD_map_lt _ scan [] [] d hd]
    rw [getD_range_map _ 400 i [] hi]
    rw [getD_range_map _ 400 j bg hj]
    norm_cast
  · intro sl r c h
    unfold lookupQ
    by_cases hneg : r < 0 ∨ c < 0
    · rw [if_pos hneg]
    · rw [if_neg hneg]
      rcases h with h | h | h | h
      · exact absurd (Or.inl h) hneg
      · exact absurd (Or.inr h) hneg
      · rw [List.getD_eq_default _ _ h]
        rfl
      · rw [List.getD_eq_default _ _ h]

/-- Witness for C9 at a concrete 1x1x1 volume and centroid (0, 0): output
depth preserved and the top-left output position reads through `lookupQ`. -/
theorem com_cropper_fixed_footprint_witness :
    (crop_scan [[[1]]] OUT_SIZE 0 0 (-2000)).length = ([[[1]]] : Scan).length ∧
    (((crop_scan [[[1]]] OUT_SIZE 0 0 (-2000)).getD 0 []).getD 0 []).getD 0 (-2000) =
      lookupQ (([[[1]]] : Scan).getD 0 [])
        (Int.floor ((0 : ℚ) - (400 : ℚ) / 2) + ((0 : ℕ) : ℤ))
        (Int.floor ((0 : ℚ) - (400 : ℚ) / 2) + ((0 : ℕ) : ℤ)) (-2000) :=
  ⟨(com_cropper_fixed_footprint [[[1]]] 0 0 (-2000)).1,
   (com_cropper_fixed_footprint [[[1]]] 0 0 (-2000)).2.2.1 0 0 0 (by decide) (by decide)
     (by decide)⟩

end Prepare3D
